import Mathlib

/-!
Verification of the poc-dta-mcp repository: a tool-invocation server
(`src/server.py`) exposing four SQL tools over a data-access gateway
(`src/database.py`).  The Python code is shallowly embedded: the external
PostgreSQL engine is an abstract `Engine` oracle, JSON values are the
inductive `Json`, raised Python exceptions are `Except PyErr`, and every
database interaction is recorded in an event trace so that connection
bracketing and submitted statement texts can be stated and proved.
-/

set_option autoImplicit false
set_option maxRecDepth 8000

namespace DtaMcp

/-- JSON values as produced by `json.dumps` in `src/server.py`; Python dicts
keep insertion order, so objects are ordered association lists. -/
inductive Json where
  | str (s : String)
  | num (n : Int)
  | bool (b : Bool)
  | null
  | arr (xs : List Json)
  | obj (fields : List (String × Json))
deriving Repr

/-- A Query Record: one ordered row, column name to value, as produced by
`RealDictCursor` and consumed as a Python dict. -/
abbrev Row := List (String × Json)

/-- Python dict lookup `row[k]` as an option (raising `KeyError` is handled
at each call site). -/
def rowGet (row : Row) (k : String) : Option Json :=
  (row.find? (fun p => p.1 = k)).map (fun p => p.2)

/-- Python dict assignment `row[k] = v`: replace in place when the key is
present, append otherwise (insertion order semantics). -/
def rowSet (row : Row) (k : String) (v : Json) : Row :=
  if row.any (fun p => p.1 = k) then
    row.map (fun p => if p.1 = k then (k, v) else p)
  else
    row ++ [(k, v)]

/-- Python `arguments.get(k, d)` on the argument bag. -/
def argsGet (args : List (String × Json)) (k : String) (d : Json) : Json :=
  match (args.find? (fun p => p.1 = k)).map (fun p => p.2) with
  | some v => v
  | none => d

/-- Whether the top-level JSON object of a response payload has field `k`. -/
def hasKey : Json → String → Bool
  | .obj fs, k => fs.any (fun p => p.1 = k)
  | _, _ => false

/-- Top-level field access on a response payload. -/
def getKey : Json → String → Option Json
  | .obj fs, k => (fs.find? (fun p => p.1 = k)).map (fun p => p.2)
  | _, _ => none

/-- Python `str(x)` as used by the f-string interpolation
`f"SELECT COUNT(*) as count FROM \x7btable_name\x7d"`.  The interpolated
catalog value is always a scalar; composite values are abstracted. -/
def jsonToPyStr : Json → String
  | .str s => s
  | .num n => toString n
  | .bool b => bif b then "True" else "False"
  | .null => "None"
  | .arr _ => "<list>"
  | .obj _ => "<dict>"

/-- A raised Python exception: `str(e)` and `type(e).__name__`, exactly the
two fields the dispatcher serializes in its `except` branch. -/
structure PyErr where
  msg : String
  ty : String
deriving Repr

/-- What `cursor.execute` leaves behind: either a column description with the
fetched rows (row-returning statement) or no description with `rowcount`
(mutating statement). -/
inductive ExecResult where
  | rows (data : List Row)
  | count (n : Int)

/-- Observable database interactions, used to state connection bracketing
(`get_connection`), which statement texts reach the engine, and commits. -/
inductive DBEvent where
  | openConn
  | closeConn
  | exec (stmt : String) (params : Option (List Json))
  | commit
deriving Repr

def isOpenConn : DBEvent → Bool
  | .openConn => true
  | _ => false

def isCloseConn : DBEvent → Bool
  | .closeConn => true
  | _ => false

def isCommit : DBEvent → Bool
  | .commit => true
  | _ => false

def isExec : DBEvent → Bool
  | .exec _ _ => true
  | _ => false

/-- The statement texts submitted to the engine, in order. -/
def execStmts (tr : List DBEvent) : List String :=
  tr.filterMap (fun e => match e with
    | .exec s _ => some s
    | _ => none)

/-- The external PostgreSQL engine, abstracted: whether `psycopg2.connect`
succeeds (and with which exception if not), and what each
`cursor.execute(statement, params)` yields — a result or a raised error. -/
structure Engine where
  connectOk : Bool
  connectErr : PyErr
  run : String → Option (List Json) → Except PyErr ExecResult

/-- Embeds `DatabaseConnection.get_connection` (src/database.py lines 30-45):
`conn = None; try: conn = connect(...); yield conn; finally: if conn:
conn.close()`.  If connecting fails the error propagates with no connection
opened; otherwise the body runs and the connection is closed on every exit
path, normal or raising. -/
def get_connection {α : Type} (eng : Engine)
    (body : Engine → Except PyErr α × List DBEvent) :
    Except PyErr α × List DBEvent :=
  if eng.connectOk then
    let r := body eng
    (r.1, DBEvent.openConn :: r.2 ++ [DBEvent.closeConn])
  else
    (Except.error eng.connectErr, [])

/-- Embeds `DatabaseConnection.execute_query` (src/database.py lines 47-66):
inside a `get_connection` bracket, run `cursor.execute(query, params)`; if
`cursor.description` is set, fetch all rows and return them as dicts; else
`conn.commit()` and return `[ \x7b "affected_rows": cursor.rowcount \x7d ]`. -/
def execute_query (eng : Engine) (query : String) (params : Option (List Json)) :
    Except PyErr (List Row) × List DBEvent :=
  get_connection eng (fun eng =>
    match eng.run query params with
    | .error e => (.error e, [DBEvent.exec query params])
    | .ok (.rows data) => (.ok data, [DBEvent.exec query params])
    | .ok (.count n) =>
        (.ok [[("affected_rows", Json.num n)]],
         [DBEvent.exec query params, DBEvent.commit]))

/-- Embeds `DatabaseConnection.test_connection` (src/database.py lines 68-77):
open a connection, run `SELECT 1`, return `True`; any exception is caught,
printed, and collapses to `False`. -/
def test_connection (eng : Engine) : Bool × List DBEvent :=
  let r := get_connection eng (fun eng =>
    match eng.run "SELECT 1" none with
    | .error e => (.error e, [DBEvent.exec "SELECT 1" none])
    | .ok _ => (.ok true, [DBEvent.exec "SELECT 1" none]))
  match r.1 with
  | .ok b => (b, r.2)
  | .error _ => (false, r.2)

/-- Python `str.isspace` characters removed by `str.strip()` (ASCII
whitespace as in CPython). -/
def pyIsSpace (c : Char) : Bool :=
  c = ' ' || c = '\t' || c = '\n' || c = '\r' || c = '\x0b' || c = '\x0c'

/-- Python `s.strip()`: drop leading and trailing whitespace. -/
def pyStrip (s : String) : String :=
  ⟨((s.data.dropWhile pyIsSpace).reverse.dropWhile pyIsSpace).reverse⟩

/-- Python `s.upper()` on the ASCII statements involved. -/
def pyUpper (s : String) : String :=
  ⟨s.data.map Char.toUpper⟩

/-- Python `s.startswith(pre)`. -/
def pyStartsWith (s pre : String) : Bool :=
  pre.data.isPrefixOf s.data

/-- The metadata statement composed in the `list_tables` branch of
`call_tool` (src/server.py lines 103-114), transcribed literally from the
triple-quoted Python string. -/
def listTablesQuery : String :=
  "\n                SELECT \n                    table_name,\n                    (SELECT COUNT(*) \n                     FROM information_schema.columns \n                     WHERE table_schema = t.table_schema \n                     AND table_name = t.table_name) as column_count\n                FROM information_schema.tables t\n                WHERE table_schema = \x27public\x27\n                AND table_type = \x27BASE TABLE\x27\n                ORDER BY table_name;\n            "

/-- The per-table count statement
`f"SELECT COUNT(*) as count FROM \x7btable_name\x7d"`
(src/server.py line 120). -/
def countQuery (table_name : String) : String :=
  "SELECT COUNT(*) as count FROM " ++ table_name

/-- The catalog statement composed in the `describe_table` branch of
`call_tool` (src/server.py lines 137-148), transcribed literally; the table
name is bound to the `%s` placeholder, never interpolated. -/
def describeQuery : String :=
  "\n                SELECT \n                    column_name,\n                    data_type,\n                    character_maximum_length,\n                    is_nullable,\n                    column_default\n                FROM information_schema.columns\n                WHERE table_schema = \x27public\x27\n                AND table_name = %s\n                ORDER BY ordinal_position;\n            "

/-- The fixed statement of the `get_customer_summary` branch
(src/server.py line 163). -/
def customerSummaryQuery : String :=
  "SELECT * FROM customer_summary ORDER BY customer_id"

/-- The `for result in results:` loop of the `list_tables` branch
(src/server.py lines 117-122): for each metadata row, read
`result["table_name"]` (KeyError if absent), run the count statement, read
`count_result[0]["count"]` (IndexError / KeyError if malformed), and set
`result["row_count"]`.  An exception aborts the loop and propagates to the
dispatch boundary. -/
def attachCounts (eng : Engine) : List Row → Except PyErr (List Row) × List DBEvent
  | [] => (.ok [], [])
  | r :: rs =>
    match rowGet r "table_name" with
    | none => (.error ⟨"\x27table_name\x27", "KeyError"⟩, [])
    | some v =>
      let res := execute_query eng (countQuery (jsonToPyStr v)) none
      match res.1 with
      | .error e => (.error e, res.2)
      | .ok count_result =>
        match count_result.head? with
        | none => (.error ⟨"list index out of range", "IndexError"⟩, res.2)
        | some row0 =>
          match rowGet row0 "count" with
          | none => (.error ⟨"\x27count\x27", "KeyError"⟩, res.2)
          | some c =>
            let rest := attachCounts eng rs
            match rest.1 with
            | .error e => (.error e, res.2 ++ rest.2)
            | .ok tail => (.ok (rowSet r "row_count" c :: tail), res.2 ++ rest.2)

/-- The body of the `try:` block of `call_tool` (src/server.py lines 74-184):
selects the tool by name, composes and runs its SQL, and builds the payload
object passed to `json.dumps`.  A raised exception is returned as
`Except.error` for the boundary handler `call_tool` to convert. -/
def dispatch (eng : Engine) (name : String) (args : List (String × Json)) :
    Except PyErr Json × List DBEvent :=
  if name = "query_database" then
    match argsGet args "query" (.str "") with
    | .str query =>
      if ¬ (pyStartsWith (pyUpper (pyStrip query)) "SELECT") then
        (.ok (Json.obj [("error",
            Json.str "Only SELECT queries are allowed for safety")]), [])
      else
        let res := execute_query eng query none
        match res.1 with
        | .error e => (.error e, res.2)
        | .ok results =>
          (.ok (Json.obj [("success", Json.bool true),
                          ("rows", Json.num (results.length : Int)),
                          ("data", Json.arr (results.map Json.obj))]), res.2)
    | _ => (.error ⟨"object has no attribute strip", "AttributeError"⟩, [])
  else if name = "list_tables" then
    let res := execute_query eng listTablesQuery none
    match res.1 with
    | .error e => (.error e, res.2)
    | .ok results =>
      let counted := attachCounts eng results
      match counted.1 with
      | .error e => (.error e, res.2 ++ counted.2)
      | .ok tables =>
        (.ok (Json.obj [("success", Json.bool true),
                        ("tables", Json.arr (tables.map Json.obj))]),
         res.2 ++ counted.2)
  else if name = "describe_table" then
    let table_name := argsGet args "table_name" (.str "")
    let res := execute_query eng describeQuery (some [table_name])
    match res.1 with
    | .error e => (.error e, res.2)
    | .ok results =>
      (.ok (Json.obj [("success", Json.bool true),
                      ("table_name", table_name),
                      ("columns", Json.arr (results.map Json.obj))]), res.2)
  else if name = "get_customer_summary" then
    let res := execute_query eng customerSummaryQuery none
    match res.1 with
    | .error e => (.error e, res.2)
    | .ok results =>
      (.ok (Json.obj [("success", Json.bool true),
                      ("customers", Json.arr (results.map Json.obj))]), res.2)
  else
    (.ok (Json.obj [("error", Json.str ("Unknown tool: " ++ name))]), [])

/-- Embeds `call_tool` (src/server.py lines 71-195): the dispatch body runs
under `try:`; any raised exception is converted into the payload
`\x7b "error": str(e), "type": type(e).__name__ \x7d`.  Every invocation
yields exactly one payload object (the single `TextContent` of the
response), paired here with the database event trace. -/
def call_tool (eng : Engine) (name : String) (args : List (String × Json)) :
    Json × List DBEvent :=
  let res := dispatch eng name args
  match res.1 with
  | .ok payload => (payload, res.2)
  | .error e =>
    (Json.obj [("error", Json.str e.msg), ("type", Json.str e.ty)], res.2)

/-! ## Theorems -/

/-- Whether an `Except` carries a success value (Python: no exception was
raised). -/
def exceptIsOk {ε α : Type} : Except ε α → Bool
  | .ok _ => true
  | .error _ => false

/-- An engine whose connection attempt always fails, for witnesses. -/
def engConnFail : Engine :=
  { connectOk := false,
    connectErr := ⟨"could not connect to server", "OperationalError"⟩,
    run := fun _ _ => .error ⟨"unreachable", "OperationalError"⟩ }

/-- An engine that answers every statement with an empty row set, for
witnesses. -/
def engEmptyRows : Engine :=
  { connectOk := true,
    connectErr := ⟨"", "OperationalError"⟩,
    run := fun _ _ => .ok (.rows []) }

/-- C9: `test_connection` is a total Boolean function of the engine outcome:
it returns `true` exactly when connecting succeeds and the trivial
`SELECT 1` statement raises nothing; every failure collapses to `false`
(the printed detail is a side effect outside the returned value), and no
exception escapes — the embedding is total by construction. -/
theorem test_connection_total_boolean (eng : Engine) :
    (test_connection eng).1 =
      (eng.connectOk && exceptIsOk (eng.run "SELECT 1" none)) := by
  unfold test_connection get_connection
  cases h : eng.connectOk with
  | false => simp [h]
  | true =>
    cases hr : eng.run "SELECT 1" none with
    | error e => simp [h, hr, exceptIsOk]
    | ok r => simp [h, hr, exceptIsOk]

/-- C10: a tool name outside the fixed catalog
\x7bquery_database, list_tables, describe_table, get_customer_summary\x7d
yields the `Unknown tool` error payload and an empty database trace — no
database operation is invoked. -/
theorem unknown_tool_error (eng : Engine) (name : String)
    (args : List (String × Json))
    (h1 : name ≠ "query_database") (h2 : name ≠ "list_tables")
    (h3 : name ≠ "describe_table") (h4 : name ≠ "get_customer_summary") :
    call_tool eng name args =
      (Json.obj [("error", Json.str ("Unknown tool: " ++ name))], []) := by
  unfold call_tool dispatch
  simp [h1, h2, h3, h4]

/-- Witness for C10 at the concrete tool name `made_up_tool`. -/
theorem unknown_tool_error_witness :
    call_tool engConnFail "made_up_tool" [] =
      (Json.obj [("error", Json.str "Unknown tool: made_up_tool")], []) := by
  exact unknown_tool_error engConnFail "made_up_tool" []
    (by decide) (by decide) (by decide) (by decide)

/-- C6: every `execute_query` call balances its connection events — the
trace holds as many closes as opens, and whenever a connection was opened
the very last event is its close, on the success path, the commit path and
the raising path alike; a failed connection attempt opens nothing. -/
theorem execute_query_releases_connection (eng : Engine) (q : String)
    (p : Option (List Json)) :
    (execute_query eng q p).2.countP isOpenConn =
      (execute_query eng q p).2.countP isCloseConn ∧
    ((execute_query eng q p).2.countP isOpenConn ≠ 0 →
      (execute_query eng q p).2.getLast? = some DBEvent.closeConn) := by
  unfold execute_query get_connection
  cases h : eng.connectOk with
  | false => simp [h, isOpenConn, isCloseConn]
  | true =>
    cases hr : eng.run q p with
    | error e => simp [h, hr, isOpenConn, isCloseConn]
    | ok r =>
      cases r with
      | rows data => simp [h, hr, isOpenConn, isCloseConn]
      | count n => simp [h, hr, isOpenConn, isCloseConn]

/-- Witness for C6 at a concrete engine that does open a connection: the
trace ends with the close event. -/
theorem execute_query_releases_connection_witness :
    (execute_query engEmptyRows "SELECT 1" none).2.countP isOpenConn ≠ 0 ∧
    (execute_query engEmptyRows "SELECT 1" none).2.getLast? =
      some DBEvent.closeConn :=
  ⟨by decide,
   (execute_query_releases_connection engEmptyRows "SELECT 1" none).2
     (by decide)⟩

/-- An engine that answers every statement with one fixed data row, for
witnesses. -/
def engOneRow : Engine :=
  { connectOk := true,
    connectErr := ⟨"", "OperationalError"⟩,
    run := fun _ _ => .ok (.rows [[("a", Json.num 1)], [("a", Json.num 2)]]) }

/-- An engine that answers every statement as a mutating statement touching
seven rows, for witnesses. -/
def engMutating : Engine :=
  { connectOk := true,
    connectErr := ⟨"", "OperationalError"⟩,
    run := fun _ _ => .ok (.count 7) }

/-- C7: when the engine yields a column description (row-returning
statement), `execute_query` returns exactly the fetched row sequence in
order with no commit; when it yields no description, the trace commits and
the result carries the affected-row count. -/
theorem execute_query_result_semantics (eng : Engine) (q : String)
    (p : Option (List Json)) (hc : eng.connectOk = true) :
    (∀ data, eng.run q p = .ok (.rows data) →
      (execute_query eng q p).1 = .ok data ∧
      (execute_query eng q p).2.countP isCommit = 0) ∧
    (∀ n, eng.run q p = .ok (.count n) →
      (execute_query eng q p).1 = .ok [[("affected_rows", Json.num n)]] ∧
      (execute_query eng q p).2.countP isCommit = 1) := by
  unfold execute_query get_connection
  constructor
  · intro data hr
    simp [hc, hr, isCommit]
  · intro n hr
    simp [hc, hr, isCommit]

/-- Witness for C7: both branches at concrete engines — a two-row result
returned verbatim without commit, and a mutating statement committed with
its row count. -/
theorem execute_query_result_semantics_witness :
    ((execute_query engOneRow "SELECT a FROM t" none).1 =
        .ok [[("a", Json.num 1)], [("a", Json.num 2)]] ∧
      (execute_query engOneRow "SELECT a FROM t" none).2.countP isCommit = 0) ∧
    ((execute_query engMutating "UPDATE t SET a = 0" none).1 =
        .ok [[("affected_rows", Json.num 7)]] ∧
      (execute_query engMutating "UPDATE t SET a = 0" none).2.countP isCommit
        = 1) :=
  ⟨(execute_query_result_semantics engOneRow "SELECT a FROM t" none rfl).1
      _ rfl,
   (execute_query_result_semantics engMutating "UPDATE t SET a = 0" none
      rfl).2 7 rfl⟩

/-- C5: when the catalog query for table `T` returns no rows (no such table
in the public schema), `describe_table` answers with a success payload
carrying `T` and an empty column list, not an error. -/
theorem describe_table_missing_table (eng : Engine) (T : String)
    (hc : eng.connectOk = true)
    (hr : eng.run describeQuery (some [Json.str T]) = .ok (.rows [])) :
    (call_tool eng "describe_table" [("table_name", Json.str T)]).1 =
      Json.obj [("success", Json.bool true),
                ("table_name", Json.str T),
                ("columns", Json.arr [])] := by
  unfold call_tool dispatch execute_query get_connection
  simp [argsGet, hc, hr]

/-- Witness for C5 at a concrete empty-catalog engine and the table name
`no_such_table`. -/
theorem describe_table_missing_table_witness :
    (call_tool engEmptyRows "describe_table"
        [("table_name", Json.str "no_such_table")]).1 =
      Json.obj [("success", Json.bool true),
                ("table_name", Json.str "no_such_table"),
                ("columns", Json.arr [])] :=
  describe_table_missing_table engEmptyRows "no_such_table" rfl rfl

/-- Every statement-execution event in an `execute_query` trace carries
exactly the query text and parameters that were passed in. -/
theorem execute_query_exec_events (eng : Engine) (q : String)
    (p : Option (List Json)) :
    ∀ s p2, DBEvent.exec s p2 ∈ (execute_query eng q p).2 →
      s = q ∧ p2 = p := by
  unfold execute_query get_connection
  intro s p2
  cases h : eng.connectOk with
  | false => simp [h]
  | true =>
    cases hr : eng.run q p with
    | error e => simp [h, hr]
    | ok r =>
      cases r with
      | rows data => simp [h, hr]
      | count n => simp [h, hr]

/-- The statement texts an `execute_query` call submits: exactly the given
query once when the connection opens, nothing otherwise. -/
theorem execute_query_execStmts (eng : Engine) (q : String)
    (p : Option (List Json)) :
    execStmts (execute_query eng q p).2 =
      (if eng.connectOk = true then [q] else []) := by
  unfold execute_query get_connection
  cases h : eng.connectOk with
  | false => simp [h, execStmts]
  | true =>
    cases hr : eng.run q p with
    | error e => simp [h, hr, execStmts]
    | ok r =>
      cases r with
      | rows data => simp [h, hr, execStmts]
      | count n => simp [h, hr, execStmts]

/-- The trace of a `query_database` invocation on an accepted statement is
exactly the trace of the underlying gateway call with no parameters. -/
theorem query_database_trace (eng : Engine) (q : String)
    (hsel : pyStartsWith (pyUpper (pyStrip q)) "SELECT" = true) :
    (call_tool eng "query_database" [("query", Json.str q)]).2 =
      (execute_query eng q none).2 := by
  unfold call_tool dispatch
  cases hres : (execute_query eng q none).1 with
  | error e => simp [argsGet, hsel, hres]
  | ok results => simp [argsGet, hsel, hres]

/-- C1: `query_database` rejects any statement whose trimmed upper-cased
text does not start with `SELECT` — the error payload is returned and the
trace is empty, so the Gateway is never invoked; an accepted statement is
submitted with no parameters, and engine success yields the payload with
`success`, the row count and the full record sequence. -/
theorem query_database_select_guard (eng : Engine) (q : String) :
    (pyStartsWith (pyUpper (pyStrip q)) "SELECT" = false →
      call_tool eng "query_database" [("query", Json.str q)] =
        (Json.obj [("error",
          Json.str "Only SELECT queries are allowed for safety")], [])) ∧
    (pyStartsWith (pyUpper (pyStrip q)) "SELECT" = true →
      (∀ s p, DBEvent.exec s p ∈
          (call_tool eng "query_database" [("query", Json.str q)]).2 →
        s = q ∧ p = none) ∧
      (∀ results, (execute_query eng q none).1 = .ok results →
        (call_tool eng "query_database" [("query", Json.str q)]).1 =
          Json.obj [("success", Json.bool true),
                    ("rows", Json.num (results.length : Int)),
                    ("data", Json.arr (results.map Json.obj))])) := by
  constructor
  · intro hsel
    unfold call_tool dispatch
    simp [argsGet, hsel]
  · intro hsel
    constructor
    · intro s p hmem
      rw [query_database_trace eng q hsel] at hmem
      exact execute_query_exec_events eng q none s p hmem
    · intro results hres
      unfold call_tool dispatch
      simp [argsGet, hsel, hres]

/-- Witness for C1: the rejected statement `DELETE FROM customers` yields
the error payload with an empty trace, and the accepted statement
`SELECT 1` against a two-row engine yields the success payload with row
count and data. -/
theorem query_database_select_guard_witness :
    call_tool engOneRow "query_database"
        [("query", Json.str "DELETE FROM customers")] =
      (Json.obj [("error",
        Json.str "Only SELECT queries are allowed for safety")], []) ∧
    (call_tool engOneRow "query_database" [("query", Json.str "SELECT 1")]).1
      = Json.obj [("success", Json.bool true),
                  ("rows", Json.num 2),
                  ("data", Json.arr [Json.obj [("a", Json.num 1)],
                                     Json.obj [("a", Json.num 2)]])] :=
  ⟨(query_database_select_guard engOneRow "DELETE FROM customers").1 rfl,
   (query_database_select_guard engOneRow "SELECT 1").2 rfl |>.2
     [[("a", Json.num 1)], [("a", Json.num 2)]] rfl⟩

/-- The trace of a `describe_table` invocation is exactly the trace of the
gateway call on the fixed catalog statement with the table name bound. -/
theorem describe_table_trace (eng : Engine) (t : Json) :
    (call_tool eng "describe_table" [("table_name", t)]).2 =
      (execute_query eng describeQuery (some [t])).2 := by
  unfold call_tool dispatch
  cases hres : (execute_query eng describeQuery (some [t])).1 with
  | error e => simp [argsGet, hres]
  | ok results => simp [argsGet, hres]

/-- C2: the statement text `describe_table` submits is the one fixed
catalog string, independent of the table-name argument — every executed
statement in the trace is `describeQuery` with the table name only in the
bound parameter list, and any two invocations submit identical statement
texts. -/
theorem describe_table_parameterized (eng : Engine) (t : Json) :
    (∀ s p, DBEvent.exec s p ∈
        (call_tool eng "describe_table" [("table_name", t)]).2 →
      s = describeQuery ∧ p = some [t]) ∧
    execStmts (call_tool eng "describe_table" [("table_name", t)]).2 =
      (if eng.connectOk = true then [describeQuery] else []) ∧
    (∀ t2 : Json,
      execStmts (call_tool eng "describe_table" [("table_name", t)]).2 =
      execStmts (call_tool eng "describe_table" [("table_name", t2)]).2) := by
  refine ⟨?_, ?_, ?_⟩
  · intro s p hmem
    rw [describe_table_trace eng t] at hmem
    exact execute_query_exec_events eng describeQuery (some [t]) s p hmem
  · rw [describe_table_trace eng t]
    exact execute_query_execStmts eng describeQuery (some [t])
  · intro t2
    rw [describe_table_trace eng t, describe_table_trace eng t2,
        execute_query_execStmts, execute_query_execStmts]

/-- Witness for C2 at the classic injection string: the submitted statement
is the fixed catalog text, the injected fragment travels only as the bound
parameter. -/
theorem describe_table_parameterized_witness :
    (describeQuery = describeQuery ∧
      (some [Json.str "x\x27; DROP TABLE y; --"] : Option (List Json)) =
        some [Json.str "x\x27; DROP TABLE y; --"]) ∧
    execStmts (call_tool engEmptyRows "describe_table"
        [("table_name", Json.str "x\x27; DROP TABLE y; --")]).2 =
      [describeQuery] :=
  ⟨(describe_table_parameterized engEmptyRows
      (Json.str "x\x27; DROP TABLE y; --")).1 describeQuery
      (some [Json.str "x\x27; DROP TABLE y; --"])
      (List.Mem.tail _ (List.Mem.head _)),
   (describe_table_parameterized engEmptyRows
      (Json.str "x\x27; DROP TABLE y; --")).2.1⟩

/-- An engine whose connection opens but every statement raises, for
witnesses. -/
def engRunFail : Engine :=
  { connectOk := true,
    connectErr := ⟨"", "OperationalError"⟩,
    run := fun _ _ => .error ⟨"syntax error at or near", "ProgrammingError"⟩ }

/-- C3: every invocation produces exactly one payload in which exactly one
of the `success` / `error` fields is populated — never both, never
neither — across all tools, argument bags and engine outcomes; and a
raised exception is converted at the boundary into the error payload
carrying its message and its type name as the category label. -/
theorem response_success_xor_error (eng : Engine) (name : String)
    (args : List (String × Json)) :
    ((hasKey (call_tool eng name args).1 "success" = true ∧
      hasKey (call_tool eng name args).1 "error" = false) ∨
     (hasKey (call_tool eng name args).1 "success" = false ∧
      hasKey (call_tool eng name args).1 "error" = true)) ∧
    (∀ e, (dispatch eng name args).1 = .error e →
      (call_tool eng name args).1 =
        Json.obj [("error", Json.str e.msg), ("type", Json.str e.ty)]) := by
  constructor
  · by_cases h1 : name = "query_database"
    · subst h1
      unfold call_tool dispatch
      cases hq : argsGet args "query" (Json.str "") with
      | str query =>
        by_cases hs : pyStartsWith (pyUpper (pyStrip query)) "SELECT" = true
        · cases hres : (execute_query eng query none).1 with
          | error e => simp [hq, hs, hres, hasKey]
          | ok results => simp [hq, hs, hres, hasKey]
        · simp [hq, hs, hasKey]
      | num n => simp [hq, hasKey]
      | bool b => simp [hq, hasKey]
      | null => simp [hq, hasKey]
      | arr xs => simp [hq, hasKey]
      | obj fs => simp [hq, hasKey]
    · by_cases h2 : name = "list_tables"
      · subst h2
        unfold call_tool dispatch
        cases hres : (execute_query eng listTablesQuery none).1 with
        | error e => simp [hres, hasKey]
        | ok results =>
          cases hcnt : (attachCounts eng results).1 with
          | error e => simp [hres, hcnt, hasKey]
          | ok tables => simp [hres, hcnt, hasKey]
      · by_cases h3 : name = "describe_table"
        · subst h3
          unfold call_tool dispatch
          cases hres : (execute_query eng describeQuery
              (some [argsGet args "table_name" (Json.str "")])).1 with
          | error e => simp [hres, hasKey]
          | ok results => simp [hres, hasKey]
        · by_cases h4 : name = "get_customer_summary"
          · subst h4
            unfold call_tool dispatch
            cases hres : (execute_query eng customerSummaryQuery none).1 with
            | error e => simp [hres, hasKey]
            | ok results => simp [hres, hasKey]
          · unfold call_tool dispatch
            simp [h1, h2, h3, h4, hasKey]
  · intro e he
    unfold call_tool
    simp [he]

/-- Witness for C3: a raising engine turns a well-formed `query_database`
call into the error payload with message and category. -/
theorem response_success_xor_error_witness :
    (call_tool engRunFail "query_database"
        [("query", Json.str "SELECT x FROM")]).1 =
      Json.obj [("error", Json.str "syntax error at or near"),
                ("type", Json.str "ProgrammingError")] :=
  (response_success_xor_error engRunFail "query_database"
      [("query", Json.str "SELECT x FROM")]).2
    ⟨"syntax error at or near", "ProgrammingError"⟩ rfl

/-- C4 counterexample: invoking `describe_table` with its required
`table_name` argument absent from the argument bag yields a success
payload, not an error payload — `arguments.get("table_name", "")` defaults
the missing argument to the empty string and the catalog query proceeds. -/
theorem missing_argument_not_validated :
    hasKey (call_tool engEmptyRows "describe_table" []).1 "success" = true ∧
    hasKey (call_tool engEmptyRows "describe_table" []).1 "error" = false ∧
    (call_tool engEmptyRows "describe_table" []).1 =
      Json.obj [("success", Json.bool true),
                ("table_name", Json.str ""),
                ("columns", Json.arr [])] :=
  ⟨rfl, rfl, rfl⟩

/-- C4 as amended: a `query_database` invocation with the `query` argument
absent is rejected with the validation error payload and no database call,
because the empty-string default fails the SELECT check; a `describe_table`
invocation with the `table_name` argument absent behaves exactly as if the
empty string had been supplied — the catalog is queried and the outcome is
whatever that lookup yields (a success payload with an empty column list on
an engine with no such table), not a reported validation error. -/
theorem missing_argument_behavior (eng : Engine) :
    call_tool eng "query_database" [] =
      (Json.obj [("error",
        Json.str "Only SELECT queries are allowed for safety")], []) ∧
    call_tool eng "describe_table" [] =
      call_tool eng "describe_table" [("table_name", Json.str "")] :=
  ⟨rfl, rfl⟩

/-- The count-per-table loop preserves the metadata ordering: when every
row names its table and every count query succeeds with one count row, the
loop returns the rows in their original order, each with its count
attached. -/
theorem attachCounts_spec (eng : Engine) (cnt : String → Json)
    (tname : Row → String) :
    ∀ rows : List Row,
      (∀ r ∈ rows, rowGet r "table_name" = some (Json.str (tname r))) →
      (∀ r ∈ rows, (execute_query eng (countQuery (tname r)) none).1 =
          .ok [[("count", cnt (tname r))]]) →
      (attachCounts eng rows).1 =
        .ok (rows.map (fun r => rowSet r "row_count" (cnt (tname r)))) := by
  intro rows
  induction rows with
  | nil => intro _ _; rfl
  | cons r rs ih =>
    intro h1 h2
    have hr1 : rowGet r "table_name" = some (Json.str (tname r)) :=
      h1 r (List.mem_cons_self r rs)
    have hr2 := h2 r (List.mem_cons_self r rs)
    have ihr := ih (fun x hx => h1 x (List.mem_cons_of_mem r hx))
                   (fun x hx => h2 x (List.mem_cons_of_mem r hx))
    unfold attachCounts
    rw [hr1]
    simp [jsonToPyStr, hr2, ihr, rowGet]

/-- C8: the `list_tables` success payload lists exactly the rows of the
metadata query in their original order (the statement itself orders
alphabetically via its `ORDER BY table_name` clause), each row extended
with `row_count` equal to the count query issued for that table during the
same invocation. -/
theorem list_tables_order_and_counts (eng : Engine) (metaRows : List Row)
    (cnt : String → Json) (tname : Row → String)
    (hc : eng.connectOk = true)
    (hmeta : eng.run listTablesQuery none = .ok (.rows metaRows))
    (h1 : ∀ r ∈ metaRows, rowGet r "table_name" = some (Json.str (tname r)))
    (h2 : ∀ r ∈ metaRows, eng.run (countQuery (tname r)) none =
        .ok (.rows [[("count", cnt (tname r))]])) :
    (call_tool eng "list_tables" []).1 =
      Json.obj [("success", Json.bool true),
        ("tables", Json.arr ((metaRows.map
          (fun r => rowSet r "row_count" (cnt (tname r)))).map Json.obj))] ∧
    (∃ pre post, listTablesQuery = pre ++ ("ORDER BY table_name" ++ post)) := by
  constructor
  · have h2' : ∀ r ∈ metaRows,
        (execute_query eng (countQuery (tname r)) none).1 =
          .ok [[("count", cnt (tname r))]] := by
      intro r hr
      unfold execute_query get_connection
      simp [hc, h2 r hr]
    have hattach := attachCounts_spec eng cnt tname metaRows h1 h2'
    have hmeta' : (execute_query eng listTablesQuery none).1 =
        .ok metaRows := by
      unfold execute_query get_connection
      simp [hc, hmeta]
    unfold call_tool dispatch
    simp [hmeta', hattach]
  · exact ⟨"\n                SELECT \n                    table_name,\n                    (SELECT COUNT(*) \n                     FROM information_schema.columns \n                     WHERE table_schema = t.table_schema \n                     AND table_name = t.table_name) as column_count\n                FROM information_schema.tables t\n                WHERE table_schema = \x27public\x27\n                AND table_type = \x27BASE TABLE\x27\n                ",
            ";\n            ", rfl⟩

/-- An engine presenting two tables, `customers` with 3 rows and `revenue`
with 5, for the C8 witness. -/
def engTwoTables : Engine :=
  { connectOk := true,
    connectErr := ⟨"", "OperationalError"⟩,
    run := fun q _ =>
      if q = listTablesQuery then
        .ok (.rows [[("table_name", Json.str "customers"),
                     ("column_count", Json.num 2)],
                    [("table_name", Json.str "revenue"),
                     ("column_count", Json.num 3)]])
      else if q = countQuery "customers" then
        .ok (.rows [[("count", Json.num 3)]])
      else if q = countQuery "revenue" then
        .ok (.rows [[("count", Json.num 5)]])
      else .error ⟨"relation does not exist", "UndefinedTable"⟩ }

/-- The metadata rows `engTwoTables` returns for the catalog statement. -/
def twoTableRows : List Row :=
  [[("table_name", Json.str "customers"), ("column_count", Json.num 2)],
   [("table_name", Json.str "revenue"), ("column_count", Json.num 3)]]

/-- The table name carried by a metadata row of `engTwoTables`. -/
def twoTableName (r : Row) : String :=
  match rowGet r "table_name" with
  | some (Json.str s) => s
  | _ => ""

/-- The row counts `engTwoTables` answers per table. -/
def twoTableCnt (n : String) : Json :=
  if n = "customers" then Json.num 3 else Json.num 5

/-- Witness for C8: on the two-table engine, `list_tables` returns
customers (3 rows) before revenue (5 rows), exactly the metadata order with
counts attached. -/
theorem list_tables_order_and_counts_witness :
    (call_tool engTwoTables "list_tables" []).1 =
      Json.obj [("success", Json.bool true),
        ("tables", Json.arr
          [Json.obj [("table_name", Json.str "customers"),
                     ("column_count", Json.num 2),
                     ("row_count", Json.num 3)],
           Json.obj [("table_name", Json.str "revenue"),
                     ("column_count", Json.num 3),
                     ("row_count", Json.num 5)]])] := by
  have h1 : ∀ r ∈ twoTableRows,
      rowGet r "table_name" = some (Json.str (twoTableName r)) := by
    intro r hr
    simp only [twoTableRows, List.mem_cons, List.not_mem_nil, or_false] at hr
    rcases hr with rfl | rfl <;> rfl
  have h2 : ∀ r ∈ twoTableRows,
      engTwoTables.run (countQuery (twoTableName r)) none =
        .ok (.rows [[("count", twoTableCnt (twoTableName r))]]) := by
    intro r hr
    simp only [twoTableRows, List.mem_cons, List.not_mem_nil, or_false] at hr
    rcases hr with rfl | rfl <;> rfl
  exact (list_tables_order_and_counts engTwoTables twoTableRows
    twoTableCnt twoTableName rfl rfl h1 h2).1

end DtaMcp
